import Mathlib

/-!
Verification of the sampling-and-aggregation core of the net-watch-time-series
dashboard.  The definitions below are shallow embeddings of the TypeScript
source: JS numbers are modelled as exact rationals (`Rat`), JS arrays as Lean
lists (with an explicit heap of references where aliasing matters), optional
fields as `Option`, and the `'good' | 'warning' | 'error' | 'unknown'` string
union as a closed inductive type.
-/

namespace NetWatch

/-- Health status union `'good' | 'warning' | 'error' | 'unknown'` from
`src/services/network/types.ts`. -/
inductive Status where
  | good
  | warning
  | error
  | unknown
deriving DecidableEq

/-- `NetworkSnapshot` from `src/services/network/types.ts`: one measurement
event.  `downloadSpeed`/`uploadSpeed` are optional (present only on speed-test
ticks), `networkName` is optional (absent means the default network). -/
structure NetworkSnapshot where
  timestamp : Int
  pingTime : Rat
  status : Status
  online : Bool
  networkName : Option String := none
  downloadSpeed : Option Rat := none
  uploadSpeed : Option Rat := none
deriving DecidableEq

/-- JS `a || b` on numbers: `b` when `a` is falsy (zero), else `a`. -/
def jsOr (a b : Rat) : Rat :=
  if a = 0 then b else a

/-- Per-key series update performed by `SnapshotManager.addSnapshot`
(src/unnamed/part_008 lines 29-36) and `NetworkService.addSnapshot`
(src/src/services/networkService.ts lines 449-456): if the series already
holds at least 100 snapshots, `shift()` removes the oldest (index 0), then
`push` appends the new snapshot at the end. -/
def addSnapshotSeries (networkSnapshots : List NetworkSnapshot)
    (snapshot : NetworkSnapshot) : List NetworkSnapshot :=
  (if 100 ≤ networkSnapshots.length then networkSnapshots.drop 1
   else networkSnapshots) ++ [snapshot]

lemma foldl_addSnapshotSeries (xs : List NetworkSnapshot) :
    xs.foldl addSnapshotSeries [] = xs.drop (xs.length - 100) := by
  induction xs using List.reverseRecOn with
  | nil => rfl
  | append_singleton xs x ih =>
    rw [List.foldl_append, List.foldl_cons, List.foldl_nil, ih]
    simp only [List.length_append, List.length_singleton]
    by_cases h : 100 ≤ xs.length
    · have hlen : (xs.drop (xs.length - 100)).length = 100 := by
        rw [List.length_drop]; omega
      simp only [addSnapshotSeries, hlen, if_pos (le_refl 100)]
      rw [List.drop_drop, List.drop_append_of_le_length (by omega)]
      congr 2
      omega
    · have hlen : ¬ 100 ≤ (xs.drop (xs.length - 100)).length := by
        rw [List.length_drop]; omega
      simp only [addSnapshotSeries, if_neg hlen]
      have h0 : xs.length - 100 = 0 := by omega
      have h1 : xs.length + 1 - 100 = 0 := by omega
      rw [h0, h1, List.drop_zero, List.drop_zero]

/-- C1: for every sequence of appends on one network's series starting from
empty, the series length never exceeds the capacity 100, and the retained
elements are exactly the most recently appended 100 in arrival order (the
oldest is evicted first, FIFO). -/
theorem series_capacity_fifo (xs : List NetworkSnapshot) :
    (xs.foldl addSnapshotSeries []).length ≤ 100 ∧
    xs.foldl addSnapshotSeries [] = xs.drop (xs.length - 100) := by
  refine ⟨?_, foldl_addSnapshotSeries xs⟩
  rw [foldl_addSnapshotSeries, List.length_drop]
  omega

/-- Configuration field `goodThreshold = 150` of `NetworkService`
(src/src/services/networkService.ts line 34). -/
def goodThreshold : Rat := 150

/-- Configuration field `warningThreshold = 300` of `NetworkService`
(src/src/services/networkService.ts line 35). -/
def warningThreshold : Rat := 300

/-- The sample classifier of `NetworkService.captureSnapshot`
(src/src/services/networkService.ts lines 173-184): status from the ping
result and the transport-level online flag. -/
def classify (pingTime : Rat) (online : Bool) : Status :=
  if !online then .error
  else if pingTime < 0 then .error
  else if pingTime ≤ goodThreshold then .good
  else if pingTime ≤ warningThreshold then .warning
  else .error

/-- C2: the classifier maps unreachable to error, a negative (timeout
sentinel) latency to error, latency at most 150 to good, latency at most
300 to warning, and anything above to error; in particular the five sample
points of the spec evaluate as stated. -/
theorem classify_thresholds (p : Rat) (r : Bool) :
    (classify p r = .good ↔ r = true ∧ 0 ≤ p ∧ p ≤ 150) ∧
    (classify p r = .warning ↔ r = true ∧ 150 < p ∧ p ≤ 300) ∧
    (classify p r = .error ↔ r = false ∨ p < 0 ∨ 300 < p) ∧
    classify 50 true = .good ∧ classify 200 true = .warning ∧
    classify 350 true = .error ∧ classify (-1) true = .error ∧
    classify p false = .error := by
  refine ⟨?_, ?_, ?_, by decide, by decide, by decide, by decide, ?_⟩ <;>
    cases r <;>
    simp only [classify, goodThreshold, warningThreshold, Bool.not_true,
      Bool.not_false, if_true, if_false, ite_true, ite_false] <;>
    first
      | (split_ifs <;> simp_all <;>
          first
            | (constructor <;> linarith)
            | linarith
            | (intro h' ; linarith))
      | simp_all

/-- `NetworkStats` from `src/services/network/types.ts`. -/
structure NetworkStats where
  status : Status
  currentPing : Rat
  min : Rat
  max : Rat
  packetLoss : Rat
  networkName : Option String := none
  downloadSpeed : Option Rat := none
  uploadSpeed : Option Rat := none
deriving DecidableEq

/-- `calculateStats` from src/unnamed/part_008 lines 142-186 (identical in
src/src/services/network/NetworkAnalyzer.ts lines 11-55): rolling stats over
the window of the 10 most recent snapshots (`slice(-10)`). -/
def calculateStats (snapshots : List NetworkSnapshot) : NetworkStats :=
  let recentSnapshots := snapshots.drop (snapshots.length - 10)
  if recentSnapshots.isEmpty then
    { status := .unknown, currentPing := 0, min := 0, max := 0, packetLoss := 0 }
  else
    let pingTimes :=
      (recentSnapshots.filter fun s => decide (0 ≤ s.pingTime)).map (·.pingTime)
    let minV : Rat := match pingTimes with
      | [] => 0
      | h :: t => t.foldl min h
    let maxV : Rat := match pingTimes with
      | [] => 0
      | h :: t => t.foldl max h
    let packetLoss : Rat :=
      ((recentSnapshots.filter fun s =>
          !s.online || decide (s.pingTime < 0)).length : Rat)
        / (recentSnapshots.length : Rat) * 100
    let latestSnapshot := recentSnapshots.getLast?
    let latestWithSpeed := recentSnapshots.reverse.find? fun s =>
      s.downloadSpeed.isSome && s.uploadSpeed.isSome
    { status := match latestSnapshot with
        | some s => s.status
        | none => .unknown,
      currentPing := jsOr (match latestSnapshot with
        | some s => s.pingTime
        | none => 0) 0,
      min := minV,
      max := maxV,
      packetLoss := packetLoss,
      networkName := latestSnapshot.bind (·.networkName),
      downloadSpeed := latestWithSpeed.bind (·.downloadSpeed),
      uploadSpeed := latestWithSpeed.bind (·.uploadSpeed) }

/-- C3: for every non-empty snapshot list, the packet loss reported by
`calculateStats` is the number of window samples (the most recent 10) that
are offline or carry the negative timeout sentinel, divided by the window
size, times 100. -/
theorem stats_packetLoss (snapshots : List NetworkSnapshot)
    (h : snapshots ≠ []) :
    (calculateStats snapshots).packetLoss =
      (((snapshots.drop (snapshots.length - 10)).filter fun s =>
          !s.online || decide (s.pingTime < 0)).length : Rat)
        / ((snapshots.drop (snapshots.length - 10)).length : Rat) * 100 := by
  have h0 : snapshots.length ≠ 0 := fun hh => h (List.length_eq_zero.mp hh)
  have hlen : (snapshots.drop (snapshots.length - 10)).length ≠ 0 := by
    rw [List.length_drop]; omega
  have hemp : (snapshots.drop (snapshots.length - 10)).isEmpty = false := by
    cases hd : snapshots.drop (snapshots.length - 10) with
    | nil => exact absurd (by rw [hd] ; rfl) hlen
    | cons a l => rfl
  simp only [calculateStats, hemp, Bool.false_eq_true, if_false]

/-- Ten reachable samples, three of which carry the `-1` timeout sentinel
(the packet-loss example of the spec). -/
def c3snapshots : List NetworkSnapshot :=
  [⟨0, 20, .good, true, none, none, none⟩,
   ⟨0, -1, .error, true, none, none, none⟩,
   ⟨0, 35, .good, true, none, none, none⟩,
   ⟨0, -1, .error, true, none, none, none⟩,
   ⟨0, 50, .good, true, none, none, none⟩,
   ⟨0, 60, .good, true, none, none, none⟩,
   ⟨0, -1, .error, true, none, none, none⟩,
   ⟨0, 70, .good, true, none, none, none⟩,
   ⟨0, 80, .good, true, none, none, none⟩,
   ⟨0, 90, .good, true, none, none, none⟩]

theorem stats_packetLoss_witness :
    c3snapshots ≠ [] ∧ (calculateStats c3snapshots).packetLoss = 30 := by
  refine ⟨by decide, ?_⟩
  rw [stats_packetLoss c3snapshots (by decide)]
  norm_num [c3snapshots]

/-- Timeframe union `'hour' | 'day' | 'week'`. -/
inductive Timeframe where
  | hour
  | day
  | week
deriving DecidableEq

/-- The `timeframeMs` table of `NetworkAnalyzer.getHistoricalMetrics`
(src/src/services/network/NetworkAnalyzer.ts lines 70-74). -/
def timeframeMs : Timeframe → Int
  | .hour => 60 * 60 * 1000
  | .day => 24 * 60 * 60 * 1000
  | .week => 7 * 24 * 60 * 60 * 1000

/-- `HistoricalMetrics` from `src/services/network/types.ts`. -/
structure HistoricalMetrics where
  availabilityPercentage : Rat
  avgPing : Rat
  p95Ping : Rat
  avgDownloadSpeed : Rat
  avgUploadSpeed : Rat
deriving DecidableEq

/-- In-window filter of `NetworkAnalyzer.getHistoricalMetrics` (line 77):
`snapshots.filter(s => now - s.timestamp <= timeframeMs)`. -/
def filterByTimeframe (snapshots : List NetworkSnapshot) (timeframe : Timeframe)
    (now : Int) : List NetworkSnapshot :=
  snapshots.filter fun s => decide (now - s.timestamp ≤ timeframeMs timeframe)

/-- Ascending sort of the non-negative in-window ping times, as built by
`NetworkAnalyzer.getHistoricalMetrics` lines 95-101 (`validPings` mapped to
values and sorted with the numeric comparator). -/
def sortedValidPings (snapshots : List NetworkSnapshot) (timeframe : Timeframe)
    (now : Int) : List Rat :=
  (((filterByTimeframe snapshots timeframe now).filter fun s =>
      decide (0 ≤ s.pingTime)).map (·.pingTime)).insertionSort (· ≤ ·)

/-- `getHistoricalMetrics` from src/src/services/network/NetworkAnalyzer.ts
lines 58-123, with `Date.now()` passed explicitly as `now`.  Note the p95
lookup `pingTimes[p95Index] || pingTimes[pingTimes.length - 1]`: a falsy
(zero) value at the index falls through to the last element, modelled by
`jsOr`. -/
def getHistoricalMetrics (snapshots : List NetworkSnapshot)
    (timeframe : Timeframe) (now : Int) : HistoricalMetrics :=
  if snapshots.isEmpty then ⟨0, 0, 0, 0, 0⟩
  else
    let filteredSnapshots := filterByTimeframe snapshots timeframe now
    if filteredSnapshots.isEmpty then ⟨0, 0, 0, 0, 0⟩
    else
      let availabilityPercentage : Rat :=
        ((filteredSnapshots.filter fun s =>
            s.online && decide (0 ≤ s.pingTime) && decide (s.pingTime < 300)).length : Rat)
          / (filteredSnapshots.length : Rat) * 100
      let validPings := filteredSnapshots.filter fun s => decide (0 ≤ s.pingTime)
      let avgPing : Rat :=
        if validPings.isEmpty then 0
        else ((validPings.map (·.pingTime)).sum) / (validPings.length : Rat)
      let pingTimes := (validPings.map (·.pingTime)).insertionSort (· ≤ ·)
      let p95Index := pingTimes.length * 95 / 100
      let p95Ping : Rat :=
        if pingTimes.isEmpty then 0
        else jsOr (pingTimes.getD p95Index 0) (pingTimes.getD (pingTimes.length - 1) 0)
      let speedSnapshots := filteredSnapshots.filter fun s =>
        s.downloadSpeed.isSome && s.uploadSpeed.isSome
      let avgDownloadSpeed : Rat :=
        if speedSnapshots.isEmpty then 0
        else ((speedSnapshots.map fun s => s.downloadSpeed.getD 0).sum)
          / (speedSnapshots.length : Rat)
      let avgUploadSpeed : Rat :=
        if speedSnapshots.isEmpty then 0
        else ((speedSnapshots.map fun s => s.uploadSpeed.getD 0).sum)
          / (speedSnapshots.length : Rat)
      ⟨availabilityPercentage, avgPing, p95Ping, avgDownloadSpeed, avgUploadSpeed⟩

/-- C4: whenever the in-window sample set is non-empty, the availability
percentage of `getHistoricalMetrics` is the count of in-window samples that
are online with latency at least 0 and strictly below 300, divided by the
in-window count, times 100. -/
theorem historical_availability (snapshots : List NetworkSnapshot)
    (timeframe : Timeframe) (now : Int)
    (h : filterByTimeframe snapshots timeframe now ≠ []) :
    (getHistoricalMetrics snapshots timeframe now).availabilityPercentage =
      (((filterByTimeframe snapshots timeframe now).filter fun s =>
          s.online && decide (0 ≤ s.pingTime) && decide (s.pingTime < 300)).length : Rat)
        / ((filterByTimeframe snapshots timeframe now).length : Rat) * 100 := by
  have hsnap : snapshots.isEmpty = false := by
    cases hs : snapshots with
    | nil => exact absurd (by rw [filterByTimeframe, hs] ; rfl) h
    | cons a l => rfl
  have hfil : (filterByTimeframe snapshots timeframe now).isEmpty = false := by
    cases hf : filterByTimeframe snapshots timeframe now with
    | nil => exact absurd hf h
    | cons a l => rfl
  simp only [getHistoricalMetrics, hsnap, hfil, Bool.false_eq_true, if_false]

/-- Four in-window samples with latencies 50, 100, -1, 400, all reachable
except the `-1` one (the availability example of the spec). -/
def c4snapshots : List NetworkSnapshot :=
  [⟨0, 50, .good, true, none, none, none⟩,
   ⟨0, 100, .warning, true, none, none, none⟩,
   ⟨0, -1, .error, false, none, none, none⟩,
   ⟨0, 400, .error, true, none, none, none⟩]

theorem historical_availability_witness :
    filterByTimeframe c4snapshots .day 0 ≠ [] ∧
    (getHistoricalMetrics c4snapshots .day 0).availabilityPercentage = 50 := by
  refine ⟨by decide, ?_⟩
  rw [historical_availability c4snapshots .day 0 (by decide)]
  norm_num [c4snapshots, filterByTimeframe, timeframeMs]

/-- The p95 selection as the amended claim describes it: the element at index
`floor(0.95 * count)` of the sorted list — except that a zero (falsy) value at
that index falls through to the last sorted element — and 0 for an empty
list. -/
def p95Amended (ps : List Rat) : Rat :=
  if ps.isEmpty then 0
  else if ps.getD (ps.length * 95 / 100) 0 = 0 then ps.getD (ps.length - 1) 0
  else ps.getD (ps.length * 95 / 100) 0

/-- Twenty in-window reachable samples with latencies 1..20. -/
def c5snapshots : List NetworkSnapshot :=
  [⟨0, 1, .good, true, none, none, none⟩,
   ⟨0, 2, .good, true, none, none, none⟩,
   ⟨0, 3, .good, true, none, none, none⟩,
   ⟨0, 4, .good, true, none, none, none⟩,
   ⟨0, 5, .good, true, none, none, none⟩,
   ⟨0, 6, .good, true, none, none, none⟩,
   ⟨0, 7, .good, true, none, none, none⟩,
   ⟨0, 8, .good, true, none, none, none⟩,
   ⟨0, 9, .good, true, none, none, none⟩,
   ⟨0, 10, .good, true, none, none, none⟩,
   ⟨0, 11, .good, true, none, none, none⟩,
   ⟨0, 12, .good, true, none, none, none⟩,
   ⟨0, 13, .good, true, none, none, none⟩,
   ⟨0, 14, .good, true, none, none, none⟩,
   ⟨0, 15, .good, true, none, none, none⟩,
   ⟨0, 16, .good, true, none, none, none⟩,
   ⟨0, 17, .good, true, none, none, none⟩,
   ⟨0, 18, .good, true, none, none, none⟩,
   ⟨0, 19, .good, true, none, none, none⟩,
   ⟨0, 20, .good, true, none, none, none⟩]

/-- C5 (amended): the p95 latency of `getHistoricalMetrics` is the element at
index `floor(0.95 * count)` of the ascending-sorted non-negative in-window
latencies, except that a zero value at that index falls through to the last
sorted element (`||` falsiness), and 0 when no such latency exists; for 20
samples with latencies 1..20 the p95 latency is 20. -/
theorem p95_sorted_index_amended (snapshots : List NetworkSnapshot)
    (timeframe : Timeframe) (now : Int) :
    (getHistoricalMetrics snapshots timeframe now).p95Ping =
      p95Amended (sortedValidPings snapshots timeframe now) ∧
    (getHistoricalMetrics c5snapshots .day 0).p95Ping = 20 := by
  constructor
  · by_cases h1 : snapshots.isEmpty
    · have hs : snapshots = [] := List.isEmpty_iff.mp h1
      subst hs
      rfl
    · by_cases h2 : (filterByTimeframe snapshots timeframe now).isEmpty
      · have hf : filterByTimeframe snapshots timeframe now = [] :=
          List.isEmpty_iff.mp h2
        have h1' : snapshots.isEmpty = false := Bool.eq_false_iff.mpr h1
        simp only [getHistoricalMetrics, sortedValidPings, h1', h2, hf,
          Bool.false_eq_true, if_false, if_true]
        rfl
      · have h1' : snapshots.isEmpty = false := Bool.eq_false_iff.mpr h1
        have h2' : (filterByTimeframe snapshots timeframe now).isEmpty = false :=
          Bool.eq_false_iff.mpr h2
        simp only [getHistoricalMetrics, sortedValidPings, p95Amended, jsOr,
          h1', h2', Bool.false_eq_true, if_false]
  · decide

/-- Twenty-one in-window reachable samples, twenty with latency 0 and one with
latency 7: the sorted latencies are 0,...,0,7, and the index
`floor(0.95 * 21) = 19` lands on a zero. -/
def c5cexSnapshots : List NetworkSnapshot :=
  (List.replicate 20 (⟨0, 0, .good, true, none, none, none⟩ : NetworkSnapshot))
    ++ [⟨0, 7, .good, true, none, none, none⟩]

theorem p95_claim_cex :
    (sortedValidPings c5cexSnapshots .day 0).getD
        ((sortedValidPings c5cexSnapshots .day 0).length * 95 / 100) 0 = 0 ∧
    (getHistoricalMetrics c5cexSnapshots .day 0).p95Ping = 7 ∧
    (getHistoricalMetrics c5cexSnapshots .day 0).p95Ping ≠
      (sortedValidPings c5cexSnapshots .day 0).getD
        ((sortedValidPings c5cexSnapshots .day 0).length * 95 / 100) 0 := by
  refine ⟨by decide, by decide, by decide⟩

/-- `MonitoringManager.checkNetwork`
(src/src/services/network/MonitoringManager.ts lines 61-89), with the awaited
`mockPing()` result and `Date.now()` passed explicitly: the reachability flag
is derived as `online = pingTime >= 0`, and the status uses this variant's
strict 100/300 cutoffs. -/
def checkNetworkSnap (pingTime : Rat) (now : Int)
    (currentNetwork : Option String) : NetworkSnapshot :=
  let online := decide (0 ≤ pingTime)
  { timestamp := now
    pingTime := pingTime
    status :=
      if online then
        if pingTime < 100 then .good
        else if pingTime < 300 then .warning
        else .error
      else .error
    online := online
    networkName := currentNetwork }

/-- `MonitoringManager.runSpeedTest` (lines 92-101): attach the measured
throughput to a snapshot. -/
def runSpeedTest (snapshot : NetworkSnapshot) (download upload : Rat) :
    NetworkSnapshot :=
  { snapshot with downloadSpeed := some download, uploadSpeed := some upload }

/-- One tick of `MonitoringManager.setupMonitoringInterval` (lines 114-130):
check the network and, when the pre-append series length is a multiple of 5,
run the speed test before handing the snapshot to the store callback. -/
def monitorTick (snapshotsLength : Nat) (pingTime : Rat) (now : Int)
    (download upload : Rat) (net : Option String) : NetworkSnapshot :=
  let result := checkNetworkSnap pingTime now net
  if snapshotsLength % 5 == 0 then runSpeedTest result download upload
  else result

/-- `n` ticks of the monitoring loop started on an empty series, feeding
`SnapshotManager.addSnapshot`: returns the retained series and the log of all
committed samples, with the measurement-provider results supplied as
streams. -/
def monitorRun (ping : Nat → Rat) (ts : Nat → Int) (download upload : Nat → Rat)
    (net : Option String) : Nat → List NetworkSnapshot × List NetworkSnapshot
  | 0 => ([], [])
  | n + 1 =>
    let p := monitorRun ping ts download upload net n
    let snap := monitorTick p.1.length (ping n) (ts n) (download n) (upload n) net
    (addSnapshotSeries p.1 snap, p.2 ++ [snap])

/-- A committed sample carries throughput data when both optional speed fields
are present. -/
def hasThroughput (s : NetworkSnapshot) : Bool :=
  s.downloadSpeed.isSome && s.uploadSpeed.isSome

/-- Placeholder default for indexed access into a sample log. -/
def defaultSnap : NetworkSnapshot := ⟨0, 0, .unknown, false, none, none, none⟩

lemma length_addSnapshotSeries (l : List NetworkSnapshot) (s : NetworkSnapshot) :
    (addSnapshotSeries l s).length =
      if 100 ≤ l.length then l.length else l.length + 1 := by
  simp only [addSnapshotSeries]
  split_ifs with h <;>
    simp only [List.length_append, List.length_drop, List.length_singleton] <;>
    omega

lemma monitorRun_store_length (ping : Nat → Rat) (ts : Nat → Int)
    (download upload : Nat → Rat) (net : Option String) (n : Nat) :
    ((monitorRun ping ts download upload net n).1).length = min n 100 := by
  induction n with
  | zero => rfl
  | succ n ih =>
    simp only [monitorRun]
    rw [length_addSnapshotSeries, ih]
    split_ifs with h <;> omega

lemma monitorRun_log_length (ping : Nat → Rat) (ts : Nat → Int)
    (download upload : Nat → Rat) (net : Option String) (n : Nat) :
    ((monitorRun ping ts download upload net n).2).length = n := by
  induction n with
  | zero => rfl
  | succ n ih =>
    simp only [monitorRun, List.length_append, List.length_singleton, ih]

lemma hasThroughput_monitorTick (len : Nat) (p : Rat) (t : Int) (d u : Rat)
    (net : Option String) :
    hasThroughput (monitorTick len p t d u net) = (len % 5 == 0) := by
  cases hb : (len % 5 == 0) <;>
    simp [monitorTick, runSpeedTest, checkNetworkSnap, hasThroughput, hb]

/-- C6 (amended): in a monitoring run started on an empty series, the i-th
committed sample (0-indexed) carries throughput fields exactly when the
pre-append series length `min i 100` is a multiple of 5 — on samples
1, 6, 11, ..., 96 (1-indexed) while the series is below capacity, and on every
sample once the series has reached capacity 100. -/
theorem throughput_cadence_amended (ping : Nat → Rat) (ts : Nat → Int)
    (download upload : Nat → Rat) (net : Option String) (n i : Nat)
    (hi : i < n) :
    hasThroughput ((monitorRun ping ts download upload net n).2.getD i defaultSnap)
      = (min i 100 % 5 == 0) := by
  induction n with
  | zero => exact absurd hi (Nat.not_lt_zero i)
  | succ n ih =>
    simp only [monitorRun]
    by_cases h : i < n
    · rw [List.getD_append _ _ _ _ (by rw [monitorRun_log_length]; exact h)]
      exact ih h
    · have hi' : i = n := by omega
      subst hi'
      rw [List.getD_append_right _ _ _ _ (by rw [monitorRun_log_length])]
      rw [monitorRun_log_length]
      simp only [Nat.sub_self, List.getD_cons_zero]
      rw [hasThroughput_monitorTick, monitorRun_store_length]

theorem throughput_cadence_amended_witness :
    5 < 7 ∧
    hasThroughput ((monitorRun (fun _ => 10) (fun _ => 0) (fun _ => 1)
        (fun _ => 1) none 7).2.getD 5 defaultSnap) = (min 5 100 % 5 == 0) :=
  ⟨by decide,
   throughput_cadence_amended (fun _ => 10) (fun _ => 0) (fun _ => 1)
     (fun _ => 1) none 7 5 (by decide)⟩

set_option maxRecDepth 100000 in
/-- C6 counterexample: running the monitoring loop for 102 ticks on an empty
series, the 102nd committed sample (log index 101) carries throughput fields —
the series is pinned at capacity 100 and 100 is a multiple of 5 — although
102 is not congruent to 1 modulo 5, falsifying the claimed
1, 6, 11, ... cadence. -/
theorem throughput_claim_cex :
    hasThroughput ((monitorRun (fun _ => 10) (fun _ => 0) (fun _ => 1)
        (fun _ => 1) none 102).2.getD 101 defaultSnap) = true ∧
    102 % 5 ≠ 1 :=
  ⟨by decide, by decide⟩

/-- Lookup in a JS `Map` keyed by strings, modelled as an association list:
`m.get(k)`. -/
def mapGet {α : Type} (m : List (String × α)) (k : String) : Option α :=
  (m.find? fun p => p.1 == k).map (·.2)

/-- `m.set(k, v)` on a JS `Map`: replace the value of an existing key in
place, otherwise append the new entry. -/
def mapSet {α : Type} : List (String × α) → String → α → List (String × α)
  | [], k, v => [(k, v)]
  | p :: m, k, v => if p.1 == k then (k, v) :: m else p :: mapSet m k v

/-- `Set.add` on a JS `Set` of callbacks (identified by numbers): a no-op for
an already-registered element, insertion at the end otherwise. -/
def setAdd (l : List Nat) (x : Nat) : List Nat :=
  if x ∈ l then l else l ++ [x]

lemma mapGet_mapSet {α : Type} (m : List (String × α)) (k : String) (v : α) :
    mapGet (mapSet m k v) k = some v := by
  induction m with
  | nil => simp [mapGet, mapSet]
  | cons p m ih =>
    by_cases hp : p.1 == k
    · simp [mapGet, mapSet, hp, List.find?_cons]
    · simp only [mapGet, mapSet, hp, Bool.false_eq_true, if_false,
        List.find?_cons, cond_false]
      simpa [mapGet] using ih

lemma mem_setAdd (l : List Nat) (x : Nat) : x ∈ setAdd l x := by
  simp only [setAdd]
  split_ifs with h
  · exact h
  · simp

/-- State of `SnapshotManager` (src/unnamed/part_008): the per-network series
map and the per-network series-subscriber registry (callbacks identified by
numbers). -/
structure SnapshotManagerState where
  snapshots : List (String × List NetworkSnapshot)
  subscribers : List (String × List Nat)
deriving DecidableEq

/-- `SnapshotManager.getSnapshots` (part_008 lines 61-64):
`this.snapshots.get(name) || []` after resolving an absent key to
`'default'`. -/
def getSnapshots (st : SnapshotManagerState) (networkName : Option String) :
    List NetworkSnapshot :=
  (mapGet st.snapshots (networkName.getD "default")).getD []

/-- `SnapshotManager.subscribe` (part_008 lines 67-86): resolve the key,
create its subscriber set if missing, add the callback, and return the new
state together with the payloads delivered synchronously to the new callback
during registration — which is none: the source never invokes `callback`
inside `subscribe`. -/
def subscribe (st : SnapshotManagerState) (callback : Nat)
    (networkName : Option String) :
    SnapshotManagerState × List (List NetworkSnapshot) :=
  let name := networkName.getD "default"
  let subs := (mapGet st.subscribers name).getD []
  ({ st with subscribers := mapSet st.subscribers name (setAdd subs callback) },
   [])

/-- `SnapshotManager.notifySubscribers` (part_008 lines 89-100): deliver the
key's current snapshot list to every subscriber registered under the key;
the result lists the (callback, payload) deliveries in registration order. -/
def notifySubscribers (st : SnapshotManagerState) (networkName : String) :
    List (Nat × List NetworkSnapshot) :=
  match mapGet st.subscribers networkName with
  | none => []
  | some subs => subs.map fun c => (c, getSnapshots st (some networkName))

/-- A store that already holds one snapshot for the default network and has
no subscriber yet. -/
def c7state : SnapshotManagerState :=
  ⟨[("default", [⟨0, 42, .good, true, none, none, none⟩])], []⟩

/-- C7 counterexample: subscribing to a key with existing data delivers
nothing synchronously — zero payloads, not the claimed exactly-once delivery
of the retained sequence. -/
theorem subscribe_claim_cex :
    getSnapshots c7state none ≠ [] ∧
    (subscribe c7state 0 none).2.length = 0 :=
  ⟨by decide, rfl⟩

/-- C7 (amended): registering a series observer delivers no snapshot
synchronously (the registration-time payload list is always empty, even when
data exists for the key); the observer is registered under the resolved key,
so the next `notifySubscribers` for that key delivers the key's current
snapshot list to it. -/
theorem subscribe_registers_without_delivery (st : SnapshotManagerState)
    (callback : Nat) (networkName : Option String) :
    (subscribe st callback networkName).2 = [] ∧
    (callback, getSnapshots st networkName) ∈
      notifySubscribers (subscribe st callback networkName).1
        (networkName.getD "default") := by
  refine ⟨rfl, ?_⟩
  simp only [subscribe, notifySubscribers, mapGet_mapSet]
  exact List.mem_map.mpr
    ⟨callback,
     mem_setAdd ((mapGet st.subscribers (networkName.getD "default")).getD [])
       callback,
     rfl⟩

/-- The snapshot store at the reference level: JS arrays are mutable heap
cells, and the `Map` stores cell indices.  This makes the aliasing behaviour
of `getSnapshots` (part_008 lines 61-64, src/src/services/networkService.ts
lines 460-463) expressible. -/
structure StoreHeap where
  heap : List (List NetworkSnapshot)
  keys : List (String × Nat)
deriving DecidableEq

/-- `getSnapshots` at the reference level: `this.snapshots.get(name) || []`
evaluates to the internal array object itself when the key exists (no copy is
taken), and to a fresh empty array (a new, unregistered cell) otherwise. -/
def getSnapshotsRef (st : StoreHeap) (networkName : Option String) :
    StoreHeap × Nat :=
  let name := networkName.getD "default"
  match mapGet st.keys name with
  | some r => (st, r)
  | none => ({ st with heap := st.heap ++ [[]] }, st.heap.length)

/-- Dereference an array cell. -/
def readRef (st : StoreHeap) (r : Nat) : List NetworkSnapshot :=
  st.heap.getD r []

/-- A caller-side `arr.push(x)` performed on an array reference. -/
def pushRef (st : StoreHeap) (r : Nat) (x : NetworkSnapshot) : StoreHeap :=
  { st with heap := st.heap.set r (st.heap.getD r [] ++ [x]) }

/-- The store's internal series for a key: the heap cell its map entry points
to. -/
def internalSeries (st : StoreHeap) (name : String) : List NetworkSnapshot :=
  match mapGet st.keys name with
  | some r => readRef st r
  | none => []

/-- A store holding one snapshot for the default network, registered at heap
cell 0. -/
def c8store : StoreHeap :=
  ⟨[[⟨0, 5, .good, true, none, none, none⟩]], [("default", 0)]⟩

/-- C8 counterexample: pushing a snapshot onto the sequence returned by
`getSnapshots` changes the store's internal series for the key — the caller
received the internal array, not a read-only copy. -/
theorem getSnapshots_copy_cex :
    internalSeries
        (pushRef (getSnapshotsRef c8store none).1
          (getSnapshotsRef c8store none).2
          ⟨1, 9, .good, true, none, none, none⟩)
        "default" ≠ internalSeries c8store "default" := by
  decide

/-- C8 (amended): for a key present in the store, `getSnapshots` returns the
internal array itself — the very reference registered for the key, with no
state change — so a caller-side push through the returned reference appends
to the store's internal series for that key instead of leaving it
unchanged. -/
theorem getSnapshots_alias_amended (st : StoreHeap) (name : String) (r : Nat)
    (hk : mapGet st.keys name = some r) (hr : r < st.heap.length)
    (x : NetworkSnapshot) :
    getSnapshotsRef st (some name) = (st, r) ∧
    internalSeries (pushRef st r x) name = internalSeries st name ++ [x] := by
  constructor
  · simp only [getSnapshotsRef, Option.getD_some, hk]
  · simp only [internalSeries, pushRef, hk, readRef]
    rw [List.getD_eq_getElem?_getD, List.getElem?_set_self hr]
    simp [List.getD_eq_getElem?_getD]

theorem getSnapshots_alias_amended_witness :
    mapGet c8store.keys "default" = some 0 ∧ 0 < c8store.heap.length ∧
    (getSnapshotsRef c8store (some "default") = (c8store, 0) ∧
      internalSeries (pushRef c8store 0 ⟨1, 9, .good, true, none, none, none⟩)
          "default" =
        internalSeries c8store "default" ++ [⟨1, 9, .good, true, none, none, none⟩]) :=
  ⟨by decide, by decide,
   getSnapshots_alias_amended c8store "default" 0 (by decide) (by decide)
     ⟨1, 9, .good, true, none, none, none⟩⟩

/-- JS `Array.prototype.forEach`/`Set.prototype.forEach` semantics when a
callback throws: callbacks are invoked in order up to and including the first
throwing one, whose exception propagates; the remaining callbacks are never
invoked.  `throws c = true` means callback `c` raises; the result lists the
invoked callbacks. -/
def forEachUntilThrow (throws : Nat → Bool) : List Nat → List Nat
  | [] => []
  | c :: cs => if throws c then [c] else c :: forEachUntilThrow throws cs

/-- `SnapshotManager.notifySubscribers` (part_008 lines 89-100) under a
throwing observer: the fan-out is a bare `subs.forEach(callback =>
callback(data))` with no try/catch around the invocations, so it follows
`forEachUntilThrow`. -/
def notifySubscribersUnderThrow (st : SnapshotManagerState)
    (networkName : String) (throws : Nat → Bool) :
    List (Nat × List NetworkSnapshot) :=
  match mapGet st.subscribers networkName with
  | none => []
  | some subs =>
    (forEachUntilThrow throws subs).map fun c =>
      (c, getSnapshots st (some networkName))

/-- A store with data for the default network and two series observers
(callbacks 0 and 1) registered for it. -/
def c9state : SnapshotManagerState :=
  ⟨[("default", [⟨0, 11, .good, true, none, none, none⟩])],
   [("default", [0, 1])]⟩

/-- C9: evaluation at the failing input — two observers are registered for
the same event and the first one throws; the fan-out stops after the first
invocation, so observer 1 is never notified, contradicting the required
isolation of callback invocations. -/
theorem notify_fanout_aborts_on_throw :
    mapGet c9state.subscribers "default" = some [0, 1] ∧
    (notifySubscribersUnderThrow c9state "default" (fun c => c == 0)).map
        Prod.fst = [0] ∧
    1 ∉ (notifySubscribersUnderThrow c9state "default" (fun c => c == 0)).map
        Prod.fst :=
  ⟨by decide, by decide, by decide⟩

lemma monitorTick_online (len : Nat) (p : Rat) (t : Int) (d u : Rat)
    (net : Option String) :
    (monitorTick len p t d u net).online = decide (0 ≤ p) ∧
    (monitorTick len p t d u net).pingTime = p := by
  cases hb : (len % 5 == 0) <;>
    simp [monitorTick, runSpeedTest, checkNetworkSnap, hb]

/-- C10: every sample committed by the monitoring loop has its reachability
flag derived from the ping result — `online = (pingTime >= 0)` — so on
committed samples the packet-loss predicate `!online || pingTime < 0`
coincides with `pingTime < 0`. -/
theorem committed_online_matches_ping (ping : Nat → Rat) (ts : Nat → Int)
    (download upload : Nat → Rat) (net : Option String) (n : Nat)
    (s : NetworkSnapshot)
    (hs : s ∈ (monitorRun ping ts download upload net n).2) :
    s.online = decide (0 ≤ s.pingTime) ∧
    ((s.online = false ∨ s.pingTime < 0) ↔ s.pingTime < 0) := by
  have key : s.online = decide (0 ≤ s.pingTime) := by
    induction n with
    | zero => simp [monitorRun] at hs
    | succ n ih =>
      simp only [monitorRun, List.mem_append, List.mem_singleton] at hs
      rcases hs with hs | hs
      · exact ih hs
      · subst hs
        rw [(monitorTick_online _ _ _ _ _ _).1, (monitorTick_online _ _ _ _ _ _).2]
  refine ⟨key, ?_, fun h => Or.inr h⟩
  rintro (h | h)
  · rw [key] at h
    simpa [Rat.not_le] using h
  · exact h

theorem committed_online_matches_ping_witness :
    (runSpeedTest (checkNetworkSnap 10 0 none) 1 1)
        ∈ (monitorRun (fun _ => 10) (fun _ => 0) (fun _ => 1) (fun _ => 1)
            none 1).2 ∧
    ((runSpeedTest (checkNetworkSnap 10 0 none) 1 1).online =
        decide (0 ≤ (runSpeedTest (checkNetworkSnap 10 0 none) 1 1).pingTime) ∧
      (((runSpeedTest (checkNetworkSnap 10 0 none) 1 1).online = false ∨
          (runSpeedTest (checkNetworkSnap 10 0 none) 1 1).pingTime < 0) ↔
        (runSpeedTest (checkNetworkSnap 10 0 none) 1 1).pingTime < 0)) :=
  ⟨by decide,
   committed_online_matches_ping (fun _ => 10) (fun _ => 0) (fun _ => 1)
     (fun _ => 1) none 1 (runSpeedTest (checkNetworkSnap 10 0 none) 1 1)
     (by decide)⟩

end NetWatch
